import Mathlib

/-!
Verification of the QR-code generator HTTP service (Go, `main.go`).

The development shallowly embeds the application logic of `main.go`:
the core operation `GenerateQRCodeBytes`, and the three HTTP handlers
registered on the default mux (`/health`, `/api/v1/qr/generate`, `/`).

The external encode primitive `qrcode.Encode` (library
`github.com/skip2/go-qrcode`) is out of scope per the spec; it is modelled
as an arbitrary function parameter of type `EncodeFn`, so that every theorem
about the glue code holds for any behaviour of the primitive.  Where a claim
depends on the primitive's contract (success values are PNG byte streams),
that contract is a hypothesis.

Byte sequences are `List Nat`.  Textual bodies are mapped to bytes
character-by-character (`strBytes`); every string the service writes is
ASCII, where Unicode code points and UTF-8 bytes coincide.
-/

namespace QRService

/-- Error-correction levels of the external QR encode primitive
(`qrcode.RecoveryLevel` in `github.com/skip2/go-qrcode`); `main.go` always
passes `qrcode.Medium`. -/
inductive RecoveryLevel where
  | low
  | medium
  | high
  | highest
deriving DecidableEq

/-- A Go `error` value: either a plain message (`fmt.Errorf` with no `%w`)
or a message wrapping an underlying cause (`fmt.Errorf` with `%w`). -/
inductive GoError where
  | msg (s : String)
  | wrapped (s : String) (cause : GoError)
deriving DecidableEq

/-- The type of the external encode primitive
`qrcode.Encode(content, level, size) ([]byte, error)`.  It is a parameter of
the embedding: the repository consumes it as a black box. -/
def EncodeFn := String → RecoveryLevel → Nat → Except GoError (List Nat)

/-- Model of `main.go` lines 17-28, `(*QRCodeGenerator).GenerateQRCodeBytes`:
reject empty text with the error `"text cannot be empty"`, otherwise call
`qrcode.Encode(text, qrcode.Medium, 256)` and either wrap a reported error
in `"failed to generate QR code: %w"` or pass the PNG bytes through. -/
def GenerateQRCodeBytes (encode : EncodeFn) (text : String) :
    Except GoError (List Nat) :=
  if text = "" then
    .error (.msg "text cannot be empty")
  else
    match encode text .medium 256 with
    | .error err => .error (.wrapped "failed to generate QR code" err)
    | .ok pngBytes => .ok pngBytes

/-- An inbound HTTP request, restricted to the parts the handlers read:
method, URL path, and the parsed query string (ordered key/value pairs). -/
structure Request where
  method : String
  path : String
  query : List (String × String)
deriving DecidableEq

/-- An HTTP response: status code, headers, raw body bytes. -/
structure Response where
  status : Nat
  headers : List (String × String)
  body : List Nat
deriving DecidableEq

/-- Bytes written for an ASCII string (code point = UTF-8 byte). -/
def strBytes (s : String) : List Nat :=
  s.data.map (fun c => c.toNat)

/-- Go `url.Values.Get(key)`: the first value associated with the key, or
the empty string when the key is absent. -/
def queryGet (q : List (String × String)) (key : String) : String :=
  match q.find? (fun p => p.1 = key) with
  | some p => p.2
  | none => ""

/-- First value of a response header, or `""` when absent
(Go `http.Header.Get`). -/
def headerGet (hs : List (String × String)) (key : String) : String :=
  match hs.find? (fun p => p.1 = key) with
  | some p => p.2
  | none => ""

/-- Go `http.Error(w, msg, code)`: plain-text content type, the status
code, and the message followed by a newline as the body. -/
def httpError (msg : String) (code : Nat) : Response :=
  { status := code
    headers := [("Content-Type", "text/plain; charset=utf-8"),
                ("X-Content-Type-Options", "nosniff")]
    body := strBytes (msg ++ "\n") }

/-- The 8-byte PNG signature 0x89 0x50 0x4E 0x47 0x0D 0x0A 0x1A 0x0A. -/
def pngSignature : List Nat :=
  [0x89, 0x50, 0x4E, 0x47, 0x0D, 0x0A, 0x1A, 0x0A]

/-- Model of `main.go` lines 36-39: the `/health` handler.  It sets
`Content-Type: application/json` and writes `{"status":"healthy"}`; the
status defaults to 200.  It reads nothing from the request. -/
def healthHandler (_ : Request) : Response :=
  { status := 200
    headers := [("Content-Type", "application/json")]
    body := strBytes "\x7b\"status\":\"healthy\"\x7d" }

/-- Model of `main.go` lines 42-67: the `/api/v1/qr/generate` handler.  Non-POST
methods get 405; an empty/absent `text` query parameter gets 400; a
generation error gets 500 with a generic body; success serves the PNG bytes
with status 200, `Content-Type: image/png` and an exact `Content-Length`
(`http.ServeContent` on a plain POST writes the full content with 200). -/
def generateHandler (encode : EncodeFn) (r : Request) : Response :=
  if r.method ≠ "POST" then
    httpError "Method not allowed" 405
  else
    let text := queryGet r.query "text"
    if text = "" then
      httpError
        "Missing required parameter \x27text\x27. Usage: POST /api/v1/qr/generate?text=your-text-here"
        400
    else
      match GenerateQRCodeBytes encode text with
      | .error _ => httpError "Failed to generate QR code" 500
      | .ok pngBytes =>
          { status := 200
            headers := [("Content-Type", "image/png"),
                        ("Content-Length", toString pngBytes.length)]
            body := pngBytes }

/-- Model of `main.go` lines 70-76: the `/` handler.  Paths other than exactly `/`
get `http.NotFound` (404); `/` itself gets the fixed identification string
(Go sniffs the content type to `text/plain; charset=utf-8`). -/
def rootHandler (_encode : Unit) (r : Request) : Response :=
  if r.path ≠ "/" then
    httpError "404 page not found" 404
  else
    { status := 200
      headers := [("Content-Type", "text/plain; charset=utf-8")]
      body := strBytes "QR Code Generator API" }

/-- The route table wired in `main` on the default `http.ServeMux`:
the exact patterns `/health` and `/api/v1/qr/generate`, and the subtree
pattern `/` which catches every other path. -/
def serveMux (encode : EncodeFn) (r : Request) : Response :=
  if r.path = "/health" then healthHandler r
  else if r.path = "/api/v1/qr/generate" then generateHandler encode r
  else rootHandler () r

/-- A concrete encode primitive that always succeeds with a fixed
PNG-signed payload; used to instantiate universally quantified theorems. -/
def encOkConst : EncodeFn :=
  fun _ _ _ => .ok (pngSignature ++ [0])

/-- A concrete encode primitive that always fails; used to instantiate
universally quantified theorems. -/
def encErrConst : EncodeFn :=
  fun _ _ _ => .error (.msg "content too long")

/-- C1: for every non-empty text accepted by the external encode primitive
— whose contract (spec §6) is that successful results are PNG byte streams,
taken here as the hypothesis that they begin with the PNG signature —
`GenerateQRCodeBytes` succeeds and returns a non-empty byte sequence whose
first 8 bytes equal the PNG signature 0x89 0x50 0x4E 0x47 0x0D 0x0A 0x1A
0x0A. -/
theorem generate_png_signature (encode : EncodeFn)
    (hcontract : ∀ t b, encode t .medium 256 = .ok b → pngSignature <+: b)
    (text : String) (htext : text ≠ "")
    (b : List Nat) (hok : encode text .medium 256 = .ok b) :
    GenerateQRCodeBytes encode text = .ok b ∧ b ≠ [] ∧ b.take 8 = pngSignature := by
  obtain ⟨t, ht⟩ := hcontract text b hok
  refine ⟨?_, ?_, ?_⟩
  · unfold GenerateQRCodeBytes
    rw [if_neg htext, hok]
  · rw [← ht]; simp [pngSignature]
  · rw [← ht]
    have h8 : pngSignature.length = 8 := by decide
    rw [← h8, List.take_left]

/-- Witness for C1: the always-succeeding primitive `encOkConst` on the
text "hello". -/
theorem generate_png_signature_witness :
    GenerateQRCodeBytes encOkConst "hello" = .ok (pngSignature ++ [0]) ∧
      (pngSignature ++ [0]) ≠ [] ∧ (pngSignature ++ [0]).take 8 = pngSignature :=
  generate_png_signature encOkConst
    (fun _ b h => ⟨[0], by simp only [encOkConst] at h; exact Except.ok.inj h⟩)
    "hello" (by decide) (pngSignature ++ [0]) rfl

/-- C2: `GenerateQRCodeBytes` fails with the invalid-input error
`"text cannot be empty"` exactly when the text is empty; for a POST to the
generate route with empty/absent `text` (Go `Query().Get` yields `""` when
the key is absent) the response has status 400 with a plain-text body; and
no encode call is made in that case — the response is identical for every
encode primitive. -/
theorem generate_invalid_input (encode : EncodeFn) (text : String) :
    (GenerateQRCodeBytes encode text = .error (.msg "text cannot be empty") ↔ text = "")
    ∧ (∀ q, queryGet q "text" = "" →
        (serveMux encode { method := "POST", path := "/api/v1/qr/generate", query := q }).status = 400
        ∧ headerGet (serveMux encode { method := "POST", path := "/api/v1/qr/generate", query := q }).headers
            "Content-Type" = "text/plain; charset=utf-8")
    ∧ (∀ encode2 q, queryGet q "text" = "" →
        serveMux encode { method := "POST", path := "/api/v1/qr/generate", query := q }
          = serveMux encode2 { method := "POST", path := "/api/v1/qr/generate", query := q }) := by
  refine ⟨⟨?_, ?_⟩, ?_, ?_⟩
  · intro h
    by_contra hne
    unfold GenerateQRCodeBytes at h
    rw [if_neg hne] at h
    cases henc : encode text .medium 256 with
    | error e => rw [henc] at h; exact GoError.noConfusion (Except.error.inj h)
    | ok b => rw [henc] at h; exact Except.noConfusion h
  · intro h
    subst h
    simp [GenerateQRCodeBytes]
  · intro q hq
    simp [serveMux, generateHandler, hq, httpError, headerGet]
  · intro encode2 q hq
    simp [serveMux, generateHandler, hq]

/-- Witness for C2: a POST to the generate route with an empty query gets
status 400 (here with the always-failing primitive, never consulted). -/
theorem generate_invalid_input_witness :
    (serveMux encErrConst { method := "POST", path := "/api/v1/qr/generate", query := [] }).status = 400 :=
  (((generate_invalid_input encErrConst "").2.1) [] rfl).1

/-- C3: when the external primitive reports an error for a non-empty text,
`GenerateQRCodeBytes` fails with an error wrapping (not swallowing) the
underlying cause, and the HTTP wrapper answers 500 with the fixed generic
plain-text body `"Failed to generate QR code\n"` — a constant independent
of the cause, so the internal cause is not leaked. -/
theorem generate_encoding_failure (encode : EncodeFn) (text : String) (cause : GoError)
    (htext : text ≠ "") (herr : encode text .medium 256 = .error cause) :
    GenerateQRCodeBytes encode text = .error (.wrapped "failed to generate QR code" cause)
    ∧ ∀ q, queryGet q "text" = text →
        (serveMux encode { method := "POST", path := "/api/v1/qr/generate", query := q }).status = 500
        ∧ (serveMux encode { method := "POST", path := "/api/v1/qr/generate", query := q }).body
            = strBytes "Failed to generate QR code\n"
        ∧ headerGet (serveMux encode { method := "POST", path := "/api/v1/qr/generate", query := q }).headers
            "Content-Type" = "text/plain; charset=utf-8" := by
  have hgen : GenerateQRCodeBytes encode text
      = .error (.wrapped "failed to generate QR code" cause) := by
    unfold GenerateQRCodeBytes
    rw [if_neg htext, herr]
  refine ⟨hgen, ?_⟩
  intro q hq
  simp [serveMux, generateHandler, hq, htext, hgen, httpError, headerGet]

/-- Witness for C3: the always-failing primitive on text "hello" yields a
500 response. -/
theorem generate_encoding_failure_witness :
    (serveMux encErrConst { method := "POST", path := "/api/v1/qr/generate", query := [("text", "hello")] }).status = 500 :=
  ((generate_encoding_failure encErrConst "hello" (.msg "content too long")
      (by decide) rfl).2 [("text", "hello")] (by decide)).1

/-- C4: every request to `/api/v1/qr/generate` whose method is not POST
gets status 405 (Method Not Allowed). -/
theorem generate_rejects_non_post (encode : EncodeFn) (m : String)
    (q : List (String × String)) (hm : m ≠ "POST") :
    (serveMux encode { method := m, path := "/api/v1/qr/generate", query := q }).status = 405 := by
  simp [serveMux, generateHandler, hm, httpError]

/-- Witness for C4: a GET to the generate route gets 405. -/
theorem generate_rejects_non_post_witness :
    (serveMux encOkConst
        { method := "GET", path := "/api/v1/qr/generate", query := [("text", "hello")] }).status
      = 405 :=
  generate_rejects_non_post encOkConst "GET" [("text", "hello")] (by decide)

/-- C5: a successful generate request (POST to the route, non-empty `text`,
the primitive succeeds with bytes `b`) is answered with status 200, header
`Content-Type: image/png`, header `Content-Length` equal to the exact byte
count, and the raw bytes produced by `GenerateQRCodeBytes` as the body. -/
theorem generate_success_response (encode : EncodeFn) (q : List (String × String))
    (b : List Nat) (htext : queryGet q "text" ≠ "")
    (hok : encode (queryGet q "text") .medium 256 = .ok b) :
    GenerateQRCodeBytes encode (queryGet q "text") = .ok b
    ∧ serveMux encode { method := "POST", path := "/api/v1/qr/generate", query := q }
        = { status := 200
            headers := [("Content-Type", "image/png"),
                        ("Content-Length", toString b.length)]
            body := b } := by
  have hgen : GenerateQRCodeBytes encode (queryGet q "text") = .ok b := by
    unfold GenerateQRCodeBytes
    rw [if_neg htext, hok]
  refine ⟨hgen, ?_⟩
  simp [serveMux, generateHandler, htext, hgen]

/-- Witness for C5: the always-succeeding primitive on `text=hello`. -/
theorem generate_success_response_witness :
    serveMux encOkConst
        { method := "POST", path := "/api/v1/qr/generate", query := [("text", "hello")] }
      = { status := 200
          headers := [("Content-Type", "image/png"),
                      ("Content-Length", toString (pngSignature ++ [0]).length)]
          body := pngSignature ++ [0] } :=
  (generate_success_response encOkConst [("text", "hello")] (pngSignature ++ [0])
    (by decide) rfl).2

/-- C7: the `/health` route always answers the fixed payload — status 200,
`Content-Type: application/json`, body exactly `{"status":"healthy"}` —
for every method and query (no failure path, no input constraint). -/
theorem health_fixed_response (encode : EncodeFn) (r : Request)
    (h : r.path = "/health") :
    serveMux encode r
      = { status := 200
          headers := [("Content-Type", "application/json")]
          body := strBytes "\x7b\"status\":\"healthy\"\x7d" } := by
  simp [serveMux, h, healthHandler]

/-- Witness for C7: a GET to `/health`. -/
theorem health_fixed_response_witness :
    serveMux encOkConst { method := "GET", path := "/health", query := [] }
      = { status := 200
          headers := [("Content-Type", "application/json")]
          body := strBytes "\x7b\"status\":\"healthy\"\x7d" } :=
  health_fixed_response encOkConst _ rfl

/-- C9: on the generate route the method check precedes parameter
validation — any non-POST request gets 405 and never 400, whatever the
query; in particular with a missing or empty `text` parameter. -/
theorem generate_method_check_first (encode : EncodeFn) (m : String)
    (q : List (String × String)) (hm : m ≠ "POST") :
    (serveMux encode { method := m, path := "/api/v1/qr/generate", query := q }).status = 405
    ∧ (serveMux encode { method := m, path := "/api/v1/qr/generate", query := q }).status ≠ 400 := by
  simp [serveMux, generateHandler, hm, httpError]

/-- Witness for C9: a GET with no query at all gets 405, not 400. -/
theorem generate_method_check_first_witness :
    (serveMux encOkConst { method := "GET", path := "/api/v1/qr/generate", query := [] }).status = 405
    ∧ (serveMux encOkConst { method := "GET", path := "/api/v1/qr/generate", query := [] }).status ≠ 400 :=
  generate_method_check_first encOkConst "GET" [] (by decide)

/-- C10: `GenerateQRCodeBytes` is deterministic — the result depends only
on the input text, the fixed constants (Medium error correction, size 256)
and the external primitive's value at that point: two calls whose
primitives agree at `(text, Medium, 256)` yield identical results, so two
calls with the same text against the same primitive are byte-for-byte
equal (or the same error). -/
theorem generate_deterministic (enc1 enc2 : EncodeFn) (text : String)
    (h : enc1 text .medium 256 = enc2 text .medium 256) :
    GenerateQRCodeBytes enc1 text = GenerateQRCodeBytes enc2 text := by
  unfold GenerateQRCodeBytes
  rw [h]

/-- Witness for C10: two syntactically different primitives agreeing at
("hello", Medium, 256) give identical generate results. -/
theorem generate_deterministic_witness :
    GenerateQRCodeBytes encOkConst "hello"
      = GenerateQRCodeBytes (fun _ _ _ => .ok (pngSignature ++ [0])) "hello" :=
  generate_deterministic encOkConst (fun _ _ _ => .ok (pngSignature ++ [0])) "hello" rfl

/-- C6 counterexample: a POST (non-GET) request to the registered route
`/health` is answered with status 200 — the fixed health payload — and not
with 405, refuting the claim that every registered route answers 405 to a
method other than its registered one. -/
theorem health_wrong_method_not_405 :
    (serveMux encOkConst { method := "POST", path := "/health", query := [] }).status = 200
    ∧ ¬ ((serveMux encOkConst { method := "POST", path := "/health", query := [] }).status = 405) := by
  decide

/-- C6 amended: only the generate route enforces its method.  `/health`
and `/` answer their 200 success responses for every method, while a
non-POST request to `/api/v1/qr/generate` gets 405. -/
theorem method_enforcement_per_route (encode : EncodeFn) (m : String)
    (q : List (String × String)) :
    (serveMux encode { method := m, path := "/health", query := q }).status = 200
    ∧ (serveMux encode { method := m, path := "/", query := q }).status = 200
    ∧ (m ≠ "POST" →
        (serveMux encode { method := m, path := "/api/v1/qr/generate", query := q }).status = 405) := by
  refine ⟨?_, ?_, ?_⟩
  · simp [serveMux, healthHandler]
  · simp [serveMux, rootHandler]
  · intro hm
    simp [serveMux, generateHandler, hm, httpError]

/-- Witness for the amended C6 at method PUT. -/
theorem method_enforcement_per_route_witness :
    (serveMux encErrConst { method := "PUT", path := "/health", query := [] }).status = 200
    ∧ (serveMux encErrConst { method := "PUT", path := "/", query := [] }).status = 200
    ∧ (serveMux encErrConst { method := "PUT", path := "/api/v1/qr/generate", query := [] }).status = 405 :=
  ⟨(method_enforcement_per_route encErrConst "PUT" []).1,
   (method_enforcement_per_route encErrConst "PUT" []).2.1,
   (method_enforcement_per_route encErrConst "PUT" []).2.2 (by decide)⟩

/-- C8: a request to the exact path `/` is answered with status 200 and
the fixed identification body `"QR Code Generator API"`, which begins with
(hence contains) the literal substring `"QR Code Generator"`; a request
whose path matches no registered route is answered with status 404. -/
theorem root_and_not_found (encode : EncodeFn) (r : Request) :
    (r.path = "/" →
      (serveMux encode r).status = 200
      ∧ (serveMux encode r).body = strBytes "QR Code Generator API"
      ∧ strBytes "QR Code Generator" <+: (serveMux encode r).body)
    ∧ (r.path ≠ "/" → r.path ≠ "/health" → r.path ≠ "/api/v1/qr/generate" →
      (serveMux encode r).status = 404) := by
  constructor
  · intro h
    have hne1 : r.path ≠ "/health" := by rw [h]; decide
    have hne2 : r.path ≠ "/api/v1/qr/generate" := by rw [h]; decide
    have hmux : serveMux encode r
        = { status := 200
            headers := [("Content-Type", "text/plain; charset=utf-8")]
            body := strBytes "QR Code Generator API" } := by
      simp [serveMux, hne1, hne2, rootHandler, h]
    rw [hmux]
    exact ⟨rfl, rfl, by decide⟩
  · intro h1 h2 h3
    simp [serveMux, h2, h3, rootHandler, h1, httpError]

/-- Witness for C8: `GET /` gets 200 and `GET /nonexistent` gets 404. -/
theorem root_and_not_found_witness :
    (serveMux encOkConst { method := "GET", path := "/", query := [] }).status = 200
    ∧ (serveMux encOkConst { method := "GET", path := "/nonexistent", query := [] }).status = 404 :=
  ⟨((root_and_not_found encOkConst { method := "GET", path := "/", query := [] }).1 rfl).1,
   (root_and_not_found encOkConst { method := "GET", path := "/nonexistent", query := [] }).2
     (by decide) (by decide) (by decide)⟩

end QRService
